import Mathlib

/-!
Verification of the farewatch snapshot-and-alert pipeline.

This file gives a shallow embedding of the pipeline's core functions
(`src/app/store/db.py`, `src/app/logic/deals.py`, `src/scripts/run_scheduler.py`,
`src/scripts/snapshot_all_watches.py`, `src/app/services/amadeus_client.py`,
`src/app/notifiers/emailer.py`, `src/app/api/app_api.py`) and proves or refutes
the specified properties of the system.

Conventions:
- prices are integer minor currency units (`Int`, matching Python ints);
- a watch's snapshot history is the list of `price_cents` values in the order
  sqlite returns them for `ORDER BY seen_utc ASC` (ties keep insertion order);
- Python `sorted` is embedded as `List.mergeSort` (both are stable comparison
  sorts over a total order);
- Python `//` (floor division) is embedded as `Int.fdiv`.
-/

set_option maxRecDepth 8000

namespace Farewatch

/-! ### History store statistics (`src/app/store/db.py`, `history_min_median`) -/

/-- `sorted(prices)` in `history_min_median`. -/
def sortPrices (prices : List Int) : List Int :=
  prices.mergeSort (fun a b => a ≤ b)

/-- The dict returned by `history_min_median`. -/
structure Stats where
  minCents : Int
  medianCents : Int
  n : Nat
  latestCents : Int
deriving Repr, DecidableEq

/-- Embeds `db.history_min_median`: `None` on empty history, else min, median
(odd count: middle of the sorted list; even count: Python floor-division `//2`
of the sum of the two middle values), count, and the last row's price
(`rows[-1]`, the latest by `seen_utc`). -/
def history_min_median (prices : List Int) : Option Stats :=
  if prices.isEmpty then none
  else
    let ps := sortPrices prices
    let n := prices.length
    let median : Int :=
      if n % 2 ≠ 0 then ps.getD (n / 2) 0
      else (ps.getD (n / 2 - 1) 0 + ps.getD (n / 2) 0).fdiv 2
    some { minCents := ps.getD 0 0, medianCents := median, n := n,
           latestCents := prices.getLastD 0 }

/-- Modelled from the spec's words (for comparison with the code): the median is
"the middle element of the ascending-sorted price list when the count is odd,
and the integer-division floor of the average of the two middle elements when
the count is even". Stated over `List.insertionSort`, an independently defined
ascending sort. -/
def medianSpec (prices : List Int) : Int :=
  let s := List.insertionSort (· ≤ ·) prices
  let k := s.length
  if k % 2 = 1 then s.getD (k / 2) 0
  else (s.getD (k / 2 - 1) 0 + s.getD (k / 2) 0).fdiv 2

/-! ### Deal evaluator (`src/app/logic/deals.py`) -/

/-- The classification dict returned by `is_new_low`. -/
structure NewLow where
  minCents : Int
  n : Nat
deriving Repr, DecidableEq

/-- Embeds `deals.is_new_low`: needs stats present with at least 2 points,
fires when the latest price is `<=` the historical minimum.  (The Python
`latest is None` guard can never trigger when stats are present and is
subsumed here.) -/
def is_new_low (prices : List Int) : Option NewLow :=
  match history_min_median prices with
  | none => none
  | some stats =>
    if stats.n < 2 then none
    else if stats.latestCents ≤ stats.minCents then
      some { minCents := stats.minCents, n := stats.n }
    else none

/-! ### Sorting lemmas -/

theorem sortPrices_perm (l : List Int) : (sortPrices l).Perm l :=
  List.mergeSort_perm l _

theorem sortPrices_sorted (l : List Int) : (sortPrices l).Sorted (· ≤ ·) := by
  have h := @List.sorted_mergeSort Int (fun a b : Int => decide (a ≤ b))
    (by intro a b c hab hbc; simp only [decide_eq_true_eq] at *; omega)
    (by intro a b; simp only [Bool.or_eq_true, decide_eq_true_eq]; omega) l
  unfold sortPrices
  exact List.Pairwise.imp (by intro a b h; simpa using h) h

theorem sortPrices_eq_insertionSort (l : List Int) :
    sortPrices l = List.insertionSort (· ≤ ·) l := by
  apply List.eq_of_perm_of_sorted
    ((sortPrices_perm l).trans (List.perm_insertionSort (· ≤ ·) l).symm)
    (sortPrices_sorted l)
  exact List.sorted_insertionSort (· ≤ ·) l

theorem sortPrices_length (l : List Int) : (sortPrices l).length = l.length :=
  (sortPrices_perm l).length_eq

/-- The head of the sorted history is a lower bound of every observed price. -/
theorem sortPrices_head_le (l : List Int) (x : Int) (hx : x ∈ l) :
    (sortPrices l).getD 0 0 ≤ x := by
  have hmem : x ∈ sortPrices l := (sortPrices_perm l).mem_iff.2 hx
  cases hps : sortPrices l with
  | nil => rw [hps] at hmem; cases hmem
  | cons a t =>
      rw [hps] at hmem
      have hs := sortPrices_sorted l
      rw [hps] at hs
      rcases List.mem_cons.1 hmem with h | h
      · simp [h]
      · simpa using List.rel_of_sorted_cons hs x h

/-- The head of the sorted history is itself an observed price. -/
theorem sortPrices_head_mem (l : List Int) (hne : l ≠ []) :
    (sortPrices l).getD 0 0 ∈ l := by
  cases hps : sortPrices l with
  | nil =>
      exfalso
      have := sortPrices_length l
      rw [hps] at this
      exact hne (List.length_eq_zero.1 this.symm)
  | cons a t =>
      apply (sortPrices_perm l).mem_iff.1
      rw [hps]
      simp

/-- C4: for every non-empty price history, the stored median equals the
spec's sorted-median (odd: middle element; even: floor of the average of the
two middle elements), and stats is absent exactly when the history is empty. -/
theorem median_matches_sorted_median (prices : List Int) :
    (history_min_median prices = none ↔ prices = []) ∧
    (∀ s, history_min_median prices = some s → s.medianCents = medianSpec prices) := by
  constructor
  · unfold history_min_median
    rcases prices with _ | ⟨a, t⟩
    · simp
    · simp
  · intro s hs
    unfold history_min_median at hs
    rcases prices with _ | ⟨a, t⟩
    · simp at hs
    · simp only [List.isEmpty_cons, Bool.false_eq_true, if_false, Option.some.injEq] at hs
      subst hs
      simp only [medianSpec, ← sortPrices_eq_insertionSort, sortPrices_length]
      rcases Nat.mod_two_eq_zero_or_one (a :: t).length with h | h
      · simp [h]
      · simp [h]

/-- Witness for C4 at a concrete even-length history. -/
theorem median_matches_sorted_median_witness :
    (Stats.medianCents ⟨100, 250, 4, 400⟩ : Int) = medianSpec [300, 100, 200, 400] :=
  (median_matches_sorted_median [300, 100, 200, 400]).2 ⟨100, 250, 4, 400⟩
    (by simp only [history_min_median, sortPrices_eq_insertionSort]; decide)

/-- C5: with fewer than 2 observations `is_new_low` returns none regardless of
the prices; with at least 2 observations it returns a classification exactly
when the latest price is less than or equal to every observed price (i.e. the
historical minimum). -/
theorem is_new_low_characterization (prices : List Int) :
    (prices.length < 2 → is_new_low prices = none) ∧
    (2 ≤ prices.length →
      ((is_new_low prices).isSome ↔ ∀ x ∈ prices, prices.getLastD 0 ≤ x)) := by
  constructor
  · intro h
    rcases prices with _ | ⟨a, t⟩
    · rfl
    · rcases t with _ | ⟨b, t2⟩
      · simp [is_new_low, history_min_median]
      · exfalso
        simp only [List.length_cons] at h
        omega
  · intro h2
    have hne : prices ≠ [] := by
      intro h
      subst h
      simp at h2
    have hiff : (is_new_low prices).isSome ↔
        prices.getLastD 0 ≤ (sortPrices prices).getD 0 0 := by
      rcases prices with _ | ⟨a, t⟩
      · simp at h2
      · have hn2 : ¬ (t.length + 1 < 2) := by
          simp only [List.length_cons] at h2
          omega
        by_cases hle : (a :: t).getLast?.getD 0 ≤ (sortPrices (a :: t))[0]?.getD 0
        · simp [is_new_low, history_min_median, hn2, hle]
        · simp [is_new_low, history_min_median, hn2, hle]
    rw [hiff]
    constructor
    · intro hle x hx
      exact le_trans hle (sortPrices_head_le _ x hx)
    · intro hall
      exact hall _ (sortPrices_head_mem _ hne)

/-- Witness for C5: a single observation yields none; a 2-point history whose
latest price is the minimum yields a classification. -/
theorem is_new_low_characterization_witness :
    is_new_low [500] = none ∧
    ((is_new_low [500, 400]).isSome ↔
      ∀ x ∈ ([500, 400] : List Int), List.getLastD [500, 400] 0 ≤ x) :=
  ⟨(is_new_low_characterization [500]).1 (by decide),
   (is_new_low_characterization [500, 400]).2 (by decide)⟩

/-! ### Timestamps and the alert decision (`src/scripts/run_scheduler.py`) -/

/-- A stored ISO-8601 timestamp string, as classified by
`datetime.fromisoformat`.  `db.append_snapshot` writes naive strings
(`datetime.utcnow().isoformat()`, no UTC offset); `snapshot_all_watches`
writes offset-aware strings (`datetime.now(timezone.utc).isoformat()`).
`unparseable` models a string `fromisoformat` rejects.  The payload is the
denoted instant in epoch seconds. -/
inductive StoredTs
  | naive (sec : Int)
  | aware (sec : Int)
  | unparseable
deriving Repr, DecidableEq

/-- A `watch_subscriptions` row as read by the scheduler. -/
structure Subscription where
  id : Nat
  email : String
  lastEmailedCents : Option Int
  lastEmailedSeen : Option StoredTs
deriving Repr, DecidableEq

/-- `MIN_HOURS_BETWEEN_ALERTS` in `run_scheduler.py`. -/
def MIN_HOURS_BETWEEN_ALERTS : Int := 6

/-- The step-3 time throttle of `should_send_email` (`now` is the aware
`datetime.now(timezone.utc)` in epoch seconds).  Python semantics embedded
here: `fromisoformat` raises on an unparseable string, and subtracting a
naive datetime from the aware `now` raises `TypeError`; both exceptions are
caught by the surrounding bare `except`, which falls through to sending.
Hence only an offset-aware stored timestamp can suppress a send. -/
def throttle_blocks (now : Int) (ts : Option StoredTs) : Bool :=
  match ts with
  | none => false
  | some StoredTs.unparseable => false
  | some (StoredTs.naive _) => false
  | some (StoredTs.aware s) => now - s < MIN_HOURS_BETWEEN_ALERTS * 3600

/-- Embeds `run_scheduler.should_send_email` for one subscription: (1) the
watch's history must be a new low; (2) the current price must strictly beat
the subscriber's `last_emailed_cents` when set; (3) the time throttle. -/
def should_send_email (history : List Int) (sub : Subscription)
    (currentPrice now : Int) : Bool :=
  if (is_new_low history).isNone then false
  else if (match sub.lastEmailedCents with
           | some lp => decide (lp ≤ currentPrice)
           | none => false) then false
  else if throttle_blocks now sub.lastEmailedSeen then false
  else true

/-! ### Email notifier (`src/app/notifiers/emailer.py`) -/

/-- Environment and transport state consumed by `send_email`. -/
structure EmailEnv where
  enableEmail : Bool
  apiKeyPresent : Bool
  fromPresent : Bool
  fallbackTo : Option String
  transportOk : Bool
deriving Repr, DecidableEq

/-- Embeds `emailer.send_email`; the Bool records whether an email was
actually dispatched.  The Python function returns `None` in every case —
disabled alerting, missing configuration and transport failure are logged
and swallowed — so callers cannot observe this value. -/
def send_email (env : EmailEnv) (emailTo : Option String) : Bool :=
  if ¬ env.enableEmail then false
  else
    let toEmail := match emailTo with
      | some e => some e
      | none => env.fallbackTo
    if ¬ env.apiKeyPresent ∨ toEmail = none ∨ ¬ env.fromPresent then false
    else env.transportOk

/-- Embeds `run_scheduler.send_alerts_for_watch` over the subscription rows of
one watch: each row that passes `should_send_email` gets a `send_email` call
followed — unconditionally — by the `update_subscription_last_emailed` write
of the latest snapshot's price and `seen_utc`.  Returns the final rows and
the addresses to which an email was actually delivered. -/
def send_alerts_for_watch (env : EmailEnv) (history : List Int)
    (subs : List Subscription) (currentPrice : Int) (seenUtc : StoredTs)
    (now : Int) : List Subscription × List String :=
  match subs with
  | [] => ([], [])
  | sub :: rest =>
    let tail := send_alerts_for_watch env history rest currentPrice seenUtc now
    if should_send_email history sub currentPrice now then
      let delivered := send_email env (some sub.email)
      ({ sub with lastEmailedCents := some currentPrice,
                  lastEmailedSeen := some seenUtc } :: tail.1,
       if delivered then sub.email :: tail.2 else tail.2)
    else (sub :: tail.1, tail.2)

/-- C1: the 6-hour throttle is bypassed for the timestamps the scheduler
itself stores.  `db.append_snapshot` writes a naive `seen_utc`, which
`update_subscription_last_emailed` copies into the subscription row; on the
next run `datetime.now(timezone.utc) - last_seen` raises `TypeError`
(aware minus naive), the bare `except` swallows it, and the alert is sent
2 hours after the previous one.  The second conjunct shows the intended
behaviour for an offset-aware timestamp at the same instants: suppressed. -/
theorem alert_throttle_bypassed_for_naive_timestamps :
    should_send_email [50000, 40000]
      ⟨1, "user@example.com", some 50000, some (StoredTs.naive 0)⟩ 40000 7200 = true ∧
    should_send_email [50000, 40000]
      ⟨1, "user@example.com", some 50000, some (StoredTs.aware 0)⟩ 40000 7200 = false := by
  constructor <;>
    (simp only [should_send_email, is_new_low, history_min_median,
      sortPrices_eq_insertionSort]; decide)

/-- C8 counterexample: with alerting disabled (`ENABLE_EMAIL` unset) no email
is dispatched, yet the subscription row's last-alerted price and timestamp
are still updated — refuting "updated when and only when an email was
actually sent". -/
theorem last_alerted_updated_without_send :
    send_alerts_for_watch ⟨false, true, true, none, true⟩ [50000, 40000]
        [⟨1, "u@example.com", none, none⟩] 40000 (StoredTs.naive 100) 0
      = ([⟨1, "u@example.com", some 40000, some (StoredTs.naive 100)⟩], []) := by
  simp only [send_alerts_for_watch, should_send_email, is_new_low,
    history_min_median, sortPrices_eq_insertionSort]
  decide

/-- C8 amended: the subscription row is updated exactly when the alert
decision passes for that subscriber, independent of whether an email was
actually dispatched; when the notification capability is disabled, nothing
is sent but passing rows are still updated. -/
theorem last_alerted_updated_on_decision (env : EmailEnv) (history : List Int)
    (subs : List Subscription) (currentPrice : Int) (seenUtc : StoredTs) (now : Int) :
    (send_alerts_for_watch env history subs currentPrice seenUtc now).1 =
      subs.map (fun sub =>
        if should_send_email history sub currentPrice now then
          { sub with lastEmailedCents := some currentPrice,
                     lastEmailedSeen := some seenUtc }
        else sub) ∧
    (env.enableEmail = false →
      (send_alerts_for_watch env history subs currentPrice seenUtc now).2 = []) := by
  induction subs with
  | nil => simp [send_alerts_for_watch]
  | cons sub rest ih =>
      constructor
      · simp only [send_alerts_for_watch, List.map_cons]
        by_cases h : should_send_email history sub currentPrice now
        · simp [h, ih.1]
        · simp [h, ih.1]
      · intro hoff
        simp only [send_alerts_for_watch]
        have hnd : send_email env (some sub.email) = false := by
          simp [send_email, hoff]
        by_cases h : should_send_email history sub currentPrice now
        · simp [h, hnd, ih.2 hoff]
        · simp [h, ih.2 hoff]

/-- Witness for the C8 amended theorem: one passing subscriber with alerting
disabled — the row is updated and the sent list is empty. -/
theorem last_alerted_updated_on_decision_witness :
    (send_alerts_for_watch ⟨false, false, false, none, false⟩ [30000, 20000]
        [⟨7, "w@example.com", none, none⟩] 20000 (StoredTs.naive 50) 0).1 =
      List.map (fun sub =>
        if should_send_email [30000, 20000] sub 20000 0 then
          { sub with lastEmailedCents := some 20000,
                     lastEmailedSeen := some (StoredTs.naive 50) }
        else sub) [⟨7, "w@example.com", none, none⟩] ∧
    (send_alerts_for_watch ⟨false, false, false, none, false⟩ [30000, 20000]
        [⟨7, "w@example.com", none, none⟩] 20000 (StoredTs.naive 50) 0).2 = [] :=
  ⟨(last_alerted_updated_on_decision ⟨false, false, false, none, false⟩ [30000, 20000]
      [⟨7, "w@example.com", none, none⟩] 20000 (StoredTs.naive 50) 0).1,
   (last_alerted_updated_on_decision ⟨false, false, false, none, false⟩ [30000, 20000]
      [⟨7, "w@example.com", none, none⟩] 20000 (StoredTs.naive 50) 0).2 rfl⟩

/-! ### Store model: watches, subscriptions, snapshots (`src/app/store/db.py`) -/

/-- A `watches` row, restricted to the fields the eligibility logic reads.
`departDate` is the result of `datetime.strptime(depart_date, "%Y-%m-%d")`
as an epoch day; `none` models a string `strptime` rejects (`ValueError`). -/
structure Watch where
  id : Nat
  departDate : Option Int
deriving Repr, DecidableEq

/-- A `watch_subscriptions` row's key fields for joins. -/
structure SubRow where
  watchId : Nat
  email : String
deriving Repr, DecidableEq

/-- A `fare_snapshots` row, with columns in schema order. -/
structure Snapshot where
  watchId : Nat
  seenUtc : StoredTs
  provider : String
  priceCents : Int
  currency : String
  offerJson : String
deriving Repr, DecidableEq

/-- The persistent store: the tables the claims touch, initialised by
`init_db` from `SCHEMA`. -/
structure DbState where
  watches : List Watch
  subs : List SubRow
  snapshots : List Snapshot
deriving Repr, DecidableEq

/-- Embeds `run_scheduler.fetch_watches_with_subscribers`:
`SELECT DISTINCT w.* FROM watches w JOIN watch_subscriptions s ON
s.watch_id = w.id`.  The join keeps exactly the watches having at least one
subscription (`DISTINCT` collapses the duplicates the join introduces); the
`ORDER BY` clause only permutes the result and is immaterial to membership.
There is no condition on `depart_date` anywhere in the query. -/
def fetch_watches_with_subscribers (db : DbState) : List Watch :=
  db.watches.filter (fun w => db.subs.any (fun s => s.watchId == w.id))

/-- The departure-date filter in `snapshot_all_watches.main`: a watch is kept
when `strptime` accepts its `depart_date` and the date is not strictly before
`today` (`if depart < today: ... skipping`). -/
def snapshot_all_date_ok (today : Int) (w : Watch) : Bool :=
  match w.departDate with
  | none => false
  | some d => if d < today then false else true

/-- Embeds `db.append_snapshot`.  The `fare_snapshots` schema declares
`FOREIGN KEY (watch_id) REFERENCES watches(id)`, but `db.connect()` never
issues `PRAGMA foreign_keys = ON` (sqlite leaves foreign-key enforcement off
by default; only `scripts/migrate_add_subscriptions.py` enables it, on its
own connection), so the INSERT succeeds for any `watch_id`, present in
`watches` or not.  `seen_utc` is `datetime.utcnow().isoformat(...)` — a
naive timestamp at the current instant `now`.  The caller's
`int(round(float(price_total) * 100))` conversion yields `priceCents`. -/
def append_snapshot (db : DbState) (watchId : Nat) (provider : String)
    (priceCents : Int) (currency : String) (offerJson : String)
    (now : Int) : DbState :=
  { db with snapshots :=
      db.snapshots ++ [⟨watchId, StoredTs.naive now, provider, priceCents, currency, offerJson⟩] }

/-- The spec invariant, decidably: every stored snapshot references an
existing watch. -/
def snapshots_reference_watches (db : DbState) : Bool :=
  db.snapshots.all (fun snap => db.watches.any (fun w => w.id == snap.watchId))

/-- C2 counterexample: a watch whose departure date is already in the past
but which has one subscriber is in the scheduler run's processed set
(`fetch_watches_with_subscribers` has no date condition), refuting "the set
processed is exactly the watches with a subscription AND a future departure".
The second conjunct shows the date filter that does exist lives in
`snapshot_all_watches`, which would skip this watch. -/
theorem past_watch_with_subscriber_is_processed :
    fetch_watches_with_subscribers ⟨[⟨1, some 0⟩], [⟨1, "s@example.com"⟩], []⟩
      = [⟨1, some 0⟩] ∧
    snapshot_all_date_ok 100 ⟨1, some 0⟩ = false := by
  decide

/-- C2 amended: the two orchestrators apply the two halves of the filter
separately — the scheduler run processes exactly the watches with at least
one subscription (no departure-date condition), while `snapshot_all_watches`
keeps exactly the watches whose departure date parses and has not passed
(no subscription condition). -/
theorem eligibility_filters_split (db : DbState) (today : Int) (ws : List Watch)
    (w : Watch) :
    (w ∈ fetch_watches_with_subscribers db ↔
      w ∈ db.watches ∧ ∃ s ∈ db.subs, s.watchId = w.id) ∧
    (w ∈ ws.filter (snapshot_all_date_ok today) ↔
      w ∈ ws ∧ ∃ d, w.departDate = some d ∧ ¬ d < today) := by
  constructor
  · simp [fetch_watches_with_subscribers, List.mem_filter, List.any_eq_true]
  · have hok : snapshot_all_date_ok today w = true ↔
        ∃ d, w.departDate = some d ∧ ¬ d < today := by
      cases hd : w.departDate with
      | none => simp [snapshot_all_date_ok, hd]
      | some d =>
          by_cases hlt : d < today
          · simp [snapshot_all_date_ok, hd, hlt]
          · simp only [snapshot_all_date_ok, hd, if_neg hlt]
            constructor
            · intro _
              exact ⟨d, rfl, hlt⟩
            · intro _
              trivial
    rw [List.mem_filter, hok]

/-- C3: `append_snapshot` performs no watch-existence check at all: for every
store state it inserts exactly one snapshot row and touches nothing else, and
at the concrete failing input (empty `watches` table, `watch_id = 1`) the
insert succeeds and leaves an orphan row, violating the every-snapshot-
references-a-watch invariant instead of signalling not-found. -/
theorem append_snapshot_never_signals_notfound :
    (∀ (db : DbState) (wid : Nat) (provider : String) (priceCents : Int)
        (currency offerJson : String) (now : Int),
      (append_snapshot db wid provider priceCents currency offerJson now).snapshots =
        db.snapshots ++ [⟨wid, StoredTs.naive now, provider, priceCents, currency, offerJson⟩] ∧
      (append_snapshot db wid provider priceCents currency offerJson now).watches =
        db.watches) ∧
    snapshots_reference_watches
        (append_snapshot ⟨[], [], []⟩ 1 "amadeus" 12345 "USD" "\x7b\x7d" 0) = false := by
  constructor
  · intro db wid provider priceCents currency offerJson now
    exact ⟨rfl, rfl⟩
  · decide

/-! ### Provider HTTP retry loop (`src/app/services/amadeus_client.py`, `_request`) -/

/-- Result of one run of `AmadeusClient._request`: a 2xx JSON body (tagged
with the attempt that produced it) or a raised `AmadeusHTTPError(status)`. -/
inductive ReqResult
  | ok (attempt : Nat)
  | err (status : Nat)
deriving Repr, DecidableEq

/-- Instrumented outcome of `_request`: the result, the attempts consumed,
the token refreshes performed, the backoff sleeps in milliseconds in order,
and whether the `for` loop fell through to the final
`AmadeusHTTPError(599, retry_exhausted)` raise. -/
structure ReqTrace where
  result : ReqResult
  attempts : Nat
  refreshes : Nat
  sleepsMs : List Nat
  fellThrough : Bool
deriving Repr, DecidableEq

/-- `max_retries` default in `_request`. -/
def max_retries : Nat := 3

/-- One loop iteration of `_request` per unit of fuel; `resp i` is the HTTP
status returned by the request on attempt `i` (a function, so that a
refreshed credential may change later statuses).  Mirrors the Python body:
2xx returns; 401 on attempt 0 clears the token, refreshes and retries; 5xx
with attempts remaining sleeps the current backoff, doubles it and retries;
anything else raises with the response's status.  Fuel 0 is the loop's fall-
through `raise AmadeusHTTPError(599, retry_exhausted)`. -/
def request_go (resp : Nat → Nat) : Nat → Nat → Nat → Nat → List Nat → ReqTrace
  | 0, attempt, refreshes, _, sleeps => ⟨.err 599, attempt, refreshes, sleeps, true⟩
  | fuel + 1, attempt, refreshes, backoffMs, sleeps =>
    if 200 ≤ resp attempt ∧ resp attempt < 300 then
      ⟨.ok attempt, attempt + 1, refreshes, sleeps, false⟩
    else if resp attempt = 401 ∧ attempt = 0 then
      request_go resp fuel (attempt + 1) (refreshes + 1) backoffMs sleeps
    else if 500 ≤ resp attempt ∧ resp attempt < 600 ∧ attempt < max_retries - 1 then
      request_go resp fuel (attempt + 1) refreshes (2 * backoffMs) (sleeps ++ [backoffMs])
    else ⟨.err (resp attempt), attempt + 1, refreshes, sleeps, false⟩

/-- Embeds `AmadeusClient._request` with the default `max_retries = 3` and
initial backoff 0.75 s (750 ms). -/
def amadeus_request (resp : Nat → Nat) : ReqTrace :=
  request_go resp max_retries 0 0 750 []

/-- Unfolding lemma for one iteration of the loop. -/
theorem request_go_succ (resp : Nat → Nat) (f attempt refreshes backoffMs : Nat)
    (sleeps : List Nat) :
    request_go resp (f + 1) attempt refreshes backoffMs sleeps =
      if 200 ≤ resp attempt ∧ resp attempt < 300 then
        ⟨.ok attempt, attempt + 1, refreshes, sleeps, false⟩
      else if resp attempt = 401 ∧ attempt = 0 then
        request_go resp f (attempt + 1) (refreshes + 1) backoffMs sleeps
      else if 500 ≤ resp attempt ∧ resp attempt < 600 ∧ attempt < max_retries - 1 then
        request_go resp f (attempt + 1) refreshes (2 * backoffMs) (sleeps ++ [backoffMs])
      else ⟨.err (resp attempt), attempt + 1, refreshes, sleeps, false⟩ := rfl

/-- The loop never falls through to the 599 raise and uses at most 3 attempts,
as long as fuel and attempt stay in the loop's own regime. -/
theorem request_go_no_fallthrough (resp : Nat → Nat) :
    ∀ (fuel attempt refreshes backoffMs : Nat) (sleeps : List Nat),
      attempt + fuel = 3 → 1 ≤ fuel →
      (request_go resp fuel attempt refreshes backoffMs sleeps).fellThrough = false ∧
      (request_go resp fuel attempt refreshes backoffMs sleeps).attempts ≤ 3 := by
  intro fuel
  induction fuel with
  | zero =>
      intro attempt refreshes backoffMs sleeps hsum hf
      omega
  | succ f ih =>
      intro attempt refreshes backoffMs sleeps hsum hf
      rw [request_go_succ]
      by_cases h1 : 200 ≤ resp attempt ∧ resp attempt < 300
      · rw [if_pos h1]
        refine ⟨rfl, ?_⟩
        show attempt + 1 ≤ 3
        omega
      · rw [if_neg h1]
        by_cases h2 : resp attempt = 401 ∧ attempt = 0
        · rw [if_pos h2]
          exact ih (attempt + 1) (refreshes + 1) backoffMs sleeps (by omega)
            (by omega)
        · rw [if_neg h2]
          by_cases h3 : 500 ≤ resp attempt ∧ resp attempt < 600 ∧
              attempt < max_retries - 1
          · rw [if_pos h3]
            have hlt : attempt < 2 := by
              have := h3.2.2
              simpa [max_retries] using this
            exact ih (attempt + 1) refreshes (2 * backoffMs) (sleeps ++ [backoffMs])
              (by omega) (by omega)
          · rw [if_neg h3]
            refine ⟨rfl, ?_⟩
            show attempt + 1 ≤ 3
            omega

/-- C7 counterexample: a transient 5xx on the first attempt followed by a 401
on the second.  The 401 surfaces immediately with zero credential refreshes
(the refresh branch requires `attempt == 0`), refuting "a 401 authentication
failure triggers exactly one transparent credential refresh followed by a
retry". -/
theorem amadeus_401_after_5xx_not_refreshed :
    amadeus_request (fun i => if i = 0 then 500 else 401) =
      ⟨ReqResult.err 401, 2, 0, [750], false⟩ := by
  decide

/-- C7 amended: (1) three consecutive 5xx responses consume 3 attempts with
doubling backoff (750 ms then 1500 ms) and surface as an error carrying the
last 5xx status (not the unreachable 599 retry-exhausted error); (2) a 401 on
the first attempt triggers exactly one credential refresh and retry, a second
401 then surfaces; (3) a 401 on a later attempt, and every other non-2xx
status, surfaces immediately without refresh or retry; (4) the loop always
terminates within 3 attempts and never reaches the 599 fall-through raise. -/
theorem amadeus_request_policy :
    (∀ resp : Nat → Nat, (∀ i, i < 3 → 500 ≤ resp i ∧ resp i < 600) →
      amadeus_request resp = ⟨ReqResult.err (resp 2), 3, 0, [750, 1500], false⟩) ∧
    (∀ resp : Nat → Nat, resp 0 = 401 → resp 1 = 401 →
      amadeus_request resp = ⟨ReqResult.err 401, 2, 1, [], false⟩) ∧
    (∀ resp : Nat → Nat, ¬ (200 ≤ resp 0 ∧ resp 0 < 300) → resp 0 ≠ 401 →
      ¬ (500 ≤ resp 0 ∧ resp 0 < 600) →
      amadeus_request resp = ⟨ReqResult.err (resp 0), 1, 0, [], false⟩) ∧
    (∀ resp : Nat → Nat, (amadeus_request resp).fellThrough = false ∧
      (amadeus_request resp).attempts ≤ 3) := by
  refine ⟨?_, ?_, ?_, ?_⟩
  · intro resp h
    obtain ⟨h0a, h0b⟩ := h 0 (by omega)
    obtain ⟨h1a, h1b⟩ := h 1 (by omega)
    obtain ⟨h2a, h2b⟩ := h 2 (by omega)
    show request_go resp (2 + 1) 0 0 750 [] = _
    rw [request_go_succ, if_neg (by omega), if_neg (by omega),
      if_pos ⟨h0a, h0b, by decide⟩]
    show request_go resp (1 + 1) 1 0 1500 [750] = _
    rw [request_go_succ, if_neg (by omega), if_neg (by omega),
      if_pos ⟨h1a, h1b, by decide⟩]
    show request_go resp (0 + 1) 2 0 3000 [750, 1500] = _
    rw [request_go_succ, if_neg (by omega), if_neg (by omega),
      if_neg (by rintro ⟨-, -, hcontra⟩; simp [max_retries] at hcontra)]
  · intro resp h0 h1
    show request_go resp (2 + 1) 0 0 750 [] = _
    rw [request_go_succ, if_neg (by omega), if_pos ⟨h0, rfl⟩]
    show request_go resp (1 + 1) 1 1 750 [] = _
    rw [request_go_succ, if_neg (by omega), if_neg (by omega),
      if_neg (by omega), h1]
  · intro resp hn2 hn401 hn5
    show request_go resp (2 + 1) 0 0 750 [] = _
    rw [request_go_succ, if_neg hn2, if_neg (by omega),
      if_neg (by rintro ⟨ha, hb, -⟩; exact hn5 ⟨ha, hb⟩)]
  · intro resp
    exact request_go_no_fallthrough resp 3 0 0 750 [] (by omega) (by omega)

/-- Witness for the C7 amended theorem at constant response streams. -/
theorem amadeus_request_policy_witness :
    amadeus_request (fun _ => 503) = ⟨ReqResult.err 503, 3, 0, [750, 1500], false⟩ ∧
    amadeus_request (fun _ => 401) = ⟨ReqResult.err 401, 2, 1, [], false⟩ ∧
    amadeus_request (fun _ => 404) = ⟨ReqResult.err 404, 1, 0, [], false⟩ :=
  ⟨amadeus_request_policy.1 (fun _ => 503)
      (by intro i hi; exact ⟨by norm_num, by norm_num⟩),
   amadeus_request_policy.2.1 (fun _ => 401) rfl rfl,
   amadeus_request_policy.2.2.1 (fun _ => 404) (by norm_num) (by norm_num)
      (by norm_num)⟩

/-! ### Price-confirmation candidate loops (`amadeus_client.try_price_confirm`
and the inline loop of `snapshot_all_watches.snapshot_single_watch`) -/

/-- A fare offer as consumed by the confirmation loops: an identifier and the
advertised total `float(o["price"]["total"])`, modelled as `ℚ` (the
provider's decimal price strings are exact decimals). -/
structure Offer where
  oid : Nat
  total : ℚ
deriving Repr, DecidableEq

/-- `sorted(offers, key=lambda o: float(o["price"]["total"]))` — ascending by
advertised total, stable like Python's sort. -/
def sortOffers (offers : List Offer) : List Offer :=
  offers.mergeSort (fun a b => a.total ≤ b.total)

/-- Failure of `try_price_confirm`:  re-raise of the last
`AmadeusHTTPError`, or `RuntimeError("No offers to confirm")` when there was
no candidate at all. -/
inductive ConfirmFailure
  | httpError (status : Nat)
  | noOffers
deriving Repr, DecidableEq

/-- The candidate loop of `AmadeusClient.try_price_confirm`, with
`confirmRes` giving `price_confirm`'s outcome per offer (`Except` of the
HTTP error status or the confirmed offer).  Every `AmadeusHTTPError` — the
explicit 400 case and the fall-through `continue` alike — moves to the next
candidate, remembering the error.  Also returns the candidates attempted,
in order. -/
def try_go (confirmRes : Offer → Except Nat Offer) :
    List Offer → Option Nat → List Offer → Except ConfirmFailure Offer × List Offer
  | [], none, attempted => (Except.error ConfirmFailure.noOffers, attempted)
  | [], some e, attempted => (Except.error (ConfirmFailure.httpError e), attempted)
  | off :: rest, _, attempted =>
    match confirmRes off with
    | Except.ok c => (Except.ok c, attempted ++ [off])
    | Except.error e => try_go confirmRes rest (some e) (attempted ++ [off])

/-- Embeds `AmadeusClient.try_price_confirm` (called from
`snapshot_window.py`): sort ascending by advertised total, keep the
`max_candidates` cheapest, try them in order. -/
def try_price_confirm (confirmRes : Offer → Except Nat Offer)
    (offers : List Offer) (maxCandidates : Nat) :
    Except ConfirmFailure Offer × List Offer :=
  try_go confirmRes ((sortOffers offers).take maxCandidates) none []

/-- Outcome of the inline confirm loop in `snapshot_single_watch`. -/
inductive LoopOutcome
  | confirmed (off : Offer)
  | allFailedPricing
  | skippedNon400 (status : Nat)
deriving Repr, DecidableEq

/-- The inline candidate loop of `snapshot_all_watches.snapshot_single_watch`
over the already-sorted offers: a 400 pricing failure prints and moves to the
next offer; any other `AmadeusHTTPError` returns immediately, skipping the
watch; exhausting the list leaves `confirmed = None`, also skipping the
watch.  There is no cap on the number of candidates beyond the list itself
(the caller fetched with `limit=10`).  Also returns the offers attempted. -/
def snapshot_confirm_go (confirmRes : Offer → Except Nat Offer) :
    List Offer → List Offer → LoopOutcome × List Offer
  | [], attempted => (LoopOutcome.allFailedPricing, attempted)
  | off :: rest, attempted =>
    match confirmRes off with
    | Except.ok c => (LoopOutcome.confirmed c, attempted ++ [off])
    | Except.error e =>
      if e = 400 then snapshot_confirm_go confirmRes rest (attempted ++ [off])
      else (LoopOutcome.skippedNon400 e, attempted ++ [off])

/-- The confirm phase of `snapshot_single_watch`: sort, then run the loop. -/
def snapshot_confirm_loop (confirmRes : Offer → Except Nat Offer)
    (offers : List Offer) : LoopOutcome × List Offer :=
  snapshot_confirm_go confirmRes (sortOffers offers) []

/-- Skipping a prefix of 400-failures only moves it into the attempted
accumulator. -/
theorem snapshot_confirm_go_skip (f : Offer → Except Nat Offer) :
    ∀ (l1 rest acc : List Offer), (∀ o2 ∈ l1, f o2 = Except.error 400) →
      snapshot_confirm_go f (l1 ++ rest) acc =
        snapshot_confirm_go f rest (acc ++ l1) := by
  intro l1
  induction l1 with
  | nil => intro rest acc h; simp
  | cons o l1t ih =>
      intro rest acc h
      have ho : f o = Except.error 400 := h o (by simp)
      simp only [List.cons_append, snapshot_confirm_go, ho, List.append_eq]
      rw [if_pos trivial, ih rest (acc ++ [o]) (fun o2 ho2 => h o2 (by simp [ho2]))]
      simp

/-- `try_go` attempts at most the candidates it is given. -/
theorem try_go_attempts_le (f : Offer → Except Nat Offer) :
    ∀ (cand : List Offer) (lastErr : Option Nat) (acc : List Offer),
      (try_go f cand lastErr acc).2.length ≤ acc.length + cand.length := by
  intro cand
  induction cand with
  | nil =>
      intro lErr acc
      cases lErr <;> simp [try_go]
  | cons o rest ih =>
      intro lastErr acc
      simp only [try_go]
      cases hf : f o with
      | ok c => simp
      | error e =>
          calc (try_go f rest (some e) (acc ++ [o])).2.length
              ≤ (acc ++ [o]).length + rest.length := ih (some e) (acc ++ [o])
            _ ≤ acc.length + (o :: rest).length := by simp; omega

/-- C6 counterexample: four offers, ascending advertised totals, every
confirmation failing with a non-retryable 400.  The run's loop attempts all
four candidates — more than the claimed bound of 3 — before skipping the
watch. -/
theorem confirm_loop_attempts_all_offers :
    snapshot_confirm_loop (fun _ => Except.error 400)
        [⟨1, 10⟩, ⟨2, 20⟩, ⟨3, 30⟩, ⟨4, 40⟩] =
      (LoopOutcome.allFailedPricing, [⟨1, 10⟩, ⟨2, 20⟩, ⟨3, 30⟩, ⟨4, 40⟩]) ∧
    (snapshot_confirm_loop (fun _ => Except.error 400)
        [⟨1, 10⟩, ⟨2, 20⟩, ⟨3, 30⟩, ⟨4, 40⟩]).2.length = 4 := by
  have hs : sortOffers [⟨1, 10⟩, ⟨2, 20⟩, ⟨3, 30⟩, ⟨4, 40⟩] =
      [⟨1, 10⟩, ⟨2, 20⟩, ⟨3, 30⟩, ⟨4, 40⟩] :=
    List.mergeSort_of_sorted (by decide)
  constructor
  · simp only [snapshot_confirm_loop, hs]
    decide
  · simp only [snapshot_confirm_loop, hs]
    decide

/-- C6 amended: candidates are tried in ascending advertised-price order and
the loop stops at the first success in both loops; in the
`snapshot_all_watches` run a 400 failure moves to the next candidate, any
other confirmation error skips the watch immediately, and an all-failed list
skips the watch after attempting every sorted offer (bounded only by the
fetched list, not by 3); the 3-candidate cap belongs to
`AmadeusClient.try_price_confirm` (used by `snapshot_window.py`), which
attempts at most `max_candidates` offers. -/
theorem confirm_candidate_policy :
    (∀ (f : Offer → Except Nat Offer) (offers : List Offer) (mc : Nat),
      (try_price_confirm f offers mc).2.length ≤ mc) ∧
    (∀ offers : List Offer,
      (sortOffers offers).Sorted (fun a b => a.total ≤ b.total)) ∧
    (∀ (f : Offer → Except Nat Offer) (l1 : List Offer) (o c : Offer)
        (l2 : List Offer),
      (∀ o2 ∈ l1, f o2 = Except.error 400) → f o = Except.ok c →
      snapshot_confirm_go f (l1 ++ o :: l2) [] =
        (LoopOutcome.confirmed c, l1 ++ [o])) ∧
    (∀ (f : Offer → Except Nat Offer) (l1 : List Offer) (o : Offer) (e : Nat)
        (l2 : List Offer),
      (∀ o2 ∈ l1, f o2 = Except.error 400) → f o = Except.error e → e ≠ 400 →
      snapshot_confirm_go f (l1 ++ o :: l2) [] =
        (LoopOutcome.skippedNon400 e, l1 ++ [o])) ∧
    (∀ (f : Offer → Except Nat Offer) (l : List Offer),
      (∀ o ∈ l, f o = Except.error 400) →
      snapshot_confirm_go f l [] = (LoopOutcome.allFailedPricing, l)) := by
  refine ⟨?_, ?_, ?_, ?_, ?_⟩
  · intro f offers mc
    calc (try_go f ((sortOffers offers).take mc) none []).2.length
        ≤ ([] : List Offer).length + ((sortOffers offers).take mc).length :=
          try_go_attempts_le f _ none []
      _ ≤ mc := by simp [List.length_take]
  · intro offers
    have h := @List.sorted_mergeSort Offer
      (fun a b : Offer => decide (a.total ≤ b.total))
      (by intro a b c hab hbc
          simp only [decide_eq_true_eq] at *
          exact le_trans hab hbc)
      (by intro a b
          simp only [Bool.or_eq_true, decide_eq_true_eq]
          exact le_total a.total b.total) offers
    exact List.Pairwise.imp (by intro a b hab; simpa using hab) h
  · intro f l1 o c l2 h1 ho
    rw [snapshot_confirm_go_skip f l1 (o :: l2) [] h1]
    simp only [snapshot_confirm_go, ho, List.nil_append]
  · intro f l1 o e l2 h1 ho he
    rw [snapshot_confirm_go_skip f l1 (o :: l2) [] h1]
    simp only [snapshot_confirm_go, ho, List.nil_append]
    rw [if_neg he]
  · intro f l h
    have := snapshot_confirm_go_skip f l [] [] h
    simpa using this

/-- Witness for the C6 amended theorem: the hypothesis-bearing conjuncts
applied at concrete offer lists and confirmation outcomes. -/
theorem confirm_candidate_policy_witness :
    snapshot_confirm_go
        (fun o => if o.oid = 2 then Except.ok ⟨2, 20⟩ else Except.error 400)
        ([⟨1, 10⟩] ++ ⟨2, 20⟩ :: [⟨3, 30⟩]) [] =
      (LoopOutcome.confirmed ⟨2, 20⟩, [⟨1, 10⟩] ++ [⟨2, 20⟩]) ∧
    snapshot_confirm_go
        (fun o => if o.oid = 2 then Except.error 500 else Except.error 400)
        ([⟨1, 10⟩] ++ ⟨2, 20⟩ :: [⟨3, 30⟩]) [] =
      (LoopOutcome.skippedNon400 500, [⟨1, 10⟩] ++ [⟨2, 20⟩]) ∧
    snapshot_confirm_go (fun _ => Except.error 400) [⟨1, 10⟩, ⟨2, 20⟩] [] =
      (LoopOutcome.allFailedPricing, [⟨1, 10⟩, ⟨2, 20⟩]) :=
  ⟨confirm_candidate_policy.2.2.1 _ [⟨1, 10⟩] ⟨2, 20⟩ ⟨2, 20⟩ [⟨3, 30⟩]
      (by intro o2 ho2; rcases List.mem_singleton.1 ho2 with rfl; rfl) rfl,
   confirm_candidate_policy.2.2.2.1 _ [⟨1, 10⟩] ⟨2, 20⟩ 500 [⟨3, 30⟩]
      (by intro o2 ho2; rcases List.mem_singleton.1 ho2 with rfl; rfl) rfl
      (by omega),
   confirm_candidate_policy.2.2.2.2 _ [⟨1, 10⟩, ⟨2, 20⟩]
      (by intro o ho; rcases List.mem_cons.1 ho with rfl | ho2
          · rfl
          · rcases List.mem_singleton.1 ho2 with rfl; rfl)⟩

/-! ### SQL texts and sqlite statement validity (`src/app/store/db.py`) -/

/-- The SQL of `db.list_watches`, verbatim from the source (note the comma
after `currency`, directly before `FROM`). -/
def list_watches_sql : String :=
  "\n            SELECT id,\n                   origin,\n                   destination,\n                   depart_date,\n                   cabin,\n                   adults,\n                   currency,\n            FROM watches\n            ORDER BY depart_date ASC\n            "

/-- The SQL of `db.delete_subscription`, verbatim from the source. -/
def delete_subscription_sql : String :=
  "\n            DELETE FROM subscriptions\n            WHERE watch_id = ? AND email = ?\n            "

/-- `db.SCHEMA`, verbatim from the source (`\x27` is the ASCII apostrophe). -/
def SCHEMA : String :=
  "\nPRAGMA journal_mode=WAL;\n\nCREATE TABLE IF NOT EXISTS watches (\n  id INTEGER PRIMARY KEY AUTOINCREMENT,\n  origin TEXT NOT NULL,\n  destination TEXT NOT NULL,\n  depart_date TEXT NOT NULL, -- YYYY-MM-DD\n  cabin TEXT NOT NULL DEFAULT \x27ECONOMY\x27,\n  adults INTEGER NOT NULL DEFAULT 1,\n  currency TEXT NOT NULL DEFAULT \x27USD\x27,\n  baseline_price_cents INTEGER,\n  drop_threshold_pct INTEGER DEFAULT 15,\n  value_percentile INTEGER DEFAULT 20,\n  created_utc TEXT NOT NULL\n);\n\nCREATE TABLE IF NOT EXISTS fare_snapshots (\n  id INTEGER PRIMARY KEY AUTOINCREMENT,\n  watch_id INTEGER NOT NULL,\n  seen_utc TEXT NOT NULL,\n  provider TEXT NOT NULL,\n  price_cents INTEGER NOT NULL,\n  currency TEXT NOT NULL,\n  offer_json TEXT NOT NULL,\n  FOREIGN KEY (watch_id) REFERENCES watches(id)\n);\n\nCREATE INDEX IF NOT EXISTS idx_snapshots_watch_time\nON fare_snapshots (watch_id, seen_utc);\n\nCREATE UNIQUE INDEX IF NOT EXISTS uq_watch_route_date\nON watches (origin, destination, depart_date, cabin, adults, currency);\n\nCREATE TABLE IF NOT EXISTS global_min_alerts (\n  origin TEXT NOT NULL,\n  destination TEXT NOT NULL,\n  last_price_cents INTEGER NOT NULL,\n  last_sent_utc TEXT NOT NULL,\n  PRIMARY KEY (origin, destination)\n);\n\nCREATE TABLE IF NOT EXISTS watch_subscriptions (\n  id INTEGER PRIMARY KEY AUTOINCREMENT,\n  watch_id INTEGER NOT NULL,\n  email TEXT NOT NULL,\n  created_utc TEXT NOT NULL,\n  last_emailed_cents INTEGER,\n  last_emailed_seen_utc TEXT,\n  UNIQUE(watch_id, email)\n);\n"

/-- The characters of a SELECT's result-column text: everything before the
first occurrence of `FROM`. -/
def takeUntilFROM : List Char → List Char
  | 'F' :: 'R' :: 'O' :: 'M' :: _ => []
  | c :: rest => c :: takeUntilFROM rest
  | [] => []

/-- A result-column list ending in a comma directly before `FROM` (modulo
whitespace) is the sqlite syntax error at issue: sqlite's select grammar
demands a non-empty expression after every comma, so `..., currency, FROM`
is rejected at parse time with `sqlite3.OperationalError` before any row is
read. -/
def selectColumnsEndWithComma (sql : String) : Bool :=
  match (takeUntilFROM sql.toList).reverse.dropWhile Char.isWhitespace with
  | ',' :: _ => true
  | _ => false

/-- Identifier characters of sqlite table names. -/
def isIdentChar (c : Char) : Bool := c.isAlphanum || c = '_'

/-- Scan a character stream and return, for every occurrence of `pat`, the
identifier directly following it (fuel-driven scan). -/
def namesAfter (pat : List Char) : Nat → List Char → List String
  | 0, _ => []
  | _ + 1, [] => []
  | fuel + 1, c :: rest =>
    if pat.isPrefixOf (c :: rest) then
      let after := (c :: rest).drop pat.length
      String.mk (after.takeWhile isIdentChar) ::
        namesAfter pat fuel (after.dropWhile isIdentChar)
    else namesAfter pat fuel rest

/-- The tables `init_db` creates: the names after each
`CREATE TABLE IF NOT EXISTS` in `SCHEMA`.  (The migration steps in `init_db`
only add columns, and `scripts/migrate_add_subscriptions.py` likewise
creates only `watch_subscriptions`, so these are all the tables a farewatch
database ever has.) -/
def schema_tables : List String :=
  namesAfter ("CREATE TABLE IF NOT EXISTS ".toList) SCHEMA.length SCHEMA.toList

/-- The table a `DELETE FROM` statement targets. -/
def deleteTargetTable (sql : String) : String :=
  match namesAfter ("DELETE FROM ".toList) sql.length sql.toList with
  | [] => ""
  | n :: _ => n

/-- sqlite errors surfaced to Python as exceptions. -/
inductive DbError
  | operationalError (msg : String)
deriving Repr, DecidableEq

def syntaxErrorMsg : String := "near FROM: syntax error"

def noSuchTableMsg : String := "no such table: subscriptions"

/-- Embeds `db.list_watches`: sqlite first parses the SELECT above; a
dangling comma in the result-column list is a syntax error raised as
`sqlite3.OperationalError` before reading any rows; otherwise the watches
are returned (ordered by `depart_date`, immaterial to membership). -/
def list_watches (db : DbState) : Except DbError (List Watch) :=
  if selectColumnsEndWithComma list_watches_sql then
    Except.error (DbError.operationalError syntaxErrorMsg)
  else
    Except.ok db.watches

/-- Embeds the prologue and loop of `snapshot_all_watches.main`: it calls
`list_watches()` before the per-watch loop, with no try/except around it, so
an exception there propagates and no watch is processed.  On success it
would process exactly the date-eligible watches (ids returned). -/
def snapshot_all_main (db : DbState) (today : Int) : Except DbError (List Nat) :=
  match list_watches db with
  | Except.error e => Except.error e
  | Except.ok ws =>
      Except.ok ((ws.filter (snapshot_all_date_ok today)).map Watch.id)

/-- Embeds the `GET /watches` route (`app_api.get_watches`): its first
statement is `watches = list_watches()`, unguarded, so the sqlite error
escapes the route handler. -/
def get_watches_route (db : DbState) : Except DbError (List Watch) :=
  list_watches db

/-- Embeds `db.delete_subscription` with sqlite's first-use table check: the
statement targets a table that must be among the tables `init_db` created,
otherwise sqlite raises `OperationalError: no such table` and the
surrounding `connect()` context manager skips its `commit()`, leaving the
store unchanged (the error branch returns no new state). -/
def delete_subscription (db : DbState) (watchId : Nat) (email : String) :
    Except DbError DbState :=
  let remaining :=
    db.subs.filter (fun s => decide (¬ (s.watchId = watchId ∧ s.email = email)))
  if schema_tables.contains (deleteTargetTable delete_subscription_sql) then
    Except.ok { db with subs := remaining }
  else
    Except.error (DbError.operationalError noSuchTableMsg)

/-- HTTP outcome of a route. -/
inductive HttpResult (α : Type)
  | ok (value : α)
  | internalError (detail : String)
deriving Repr, DecidableEq

/-- Embeds `app_api.unsubscribe` (`DELETE /subscriptions`): calls
`delete_subscription` and converts any exception into an
`HTTPException(status_code=500)`. -/
def unsubscribe (db : DbState) (watchId : Nat) (email : String) :
    HttpResult DbState :=
  match delete_subscription db watchId email with
  | Except.ok db2 => HttpResult.ok db2
  | Except.error (DbError.operationalError msg) => HttpResult.internalError msg

/-- C9: for every database state, `list_watches` raises
`sqlite3.OperationalError` — its SELECT has a trailing comma before `FROM` —
and therefore both the `snapshot_all_watches` run and the `GET /watches`
route fail before processing a single watch. -/
theorem list_watches_always_raises (db : DbState) (today : Int) :
    selectColumnsEndWithComma list_watches_sql = true ∧
    list_watches db = Except.error (DbError.operationalError syntaxErrorMsg) ∧
    snapshot_all_main db today =
      Except.error (DbError.operationalError syntaxErrorMsg) ∧
    get_watches_route db =
      Except.error (DbError.operationalError syntaxErrorMsg) := by
  have h : selectColumnsEndWithComma list_watches_sql = true := by decide
  refine ⟨h, ?_, ?_, ?_⟩
  · simp [list_watches, h]
  · simp [snapshot_all_main, list_watches, h]
  · simp [get_watches_route, list_watches, h]

/-- C10: the schema creates `watches`, `fare_snapshots`, `global_min_alerts`
and `watch_subscriptions` — never a table named `subscriptions` — while
`delete_subscription` deletes from `subscriptions`; hence for every database
state and every (watch id, email) pair the operation raises
`OperationalError: no such table`, the unsubscribe route answers HTTP 500,
and no subscription row is ever removed. -/
theorem delete_subscription_no_such_table (db : DbState) (wid : Nat)
    (email : String) :
    schema_tables =
      ["watches", "fare_snapshots", "global_min_alerts", "watch_subscriptions"] ∧
    deleteTargetTable delete_subscription_sql = "subscriptions" ∧
    delete_subscription db wid email =
      Except.error (DbError.operationalError noSuchTableMsg) ∧
    unsubscribe db wid email = HttpResult.internalError noSuchTableMsg := by
  have h1 : schema_tables =
      ["watches", "fare_snapshots", "global_min_alerts", "watch_subscriptions"] := by
    decide
  have h2 : deleteTargetTable delete_subscription_sql = "subscriptions" := by
    decide
  have h3 : deleteTargetTable delete_subscription_sql ∉ schema_tables := by
    rw [h1, h2]
    decide
  refine ⟨h1, h2, ?_, ?_⟩
  · simp [delete_subscription, h3]
  · simp [unsubscribe, delete_subscription, h3]

end Farewatch
